import Mathlib

/-!
Verification of the stroke-synchronization core of the `mongo-draws` game
(`src/game.js`, class `Game`), as a shallow embedding in Lean 4.

The embedding follows the JavaScript source:

* `Point`/`Stroke` — pointer samples and point lists, as stored in `strokes`.
* `SceneState` / `updateScene` — the per-tick sampler (`Game.updateScene`):
  owner check, point buffering with the `- 2` centering offset, and the
  `$push` update issued on release, with its `{owner_id, _id}` match filter.
* `ChangeEvent` / `processEvent` — the change-feed listener installed in
  `Game.createScene`, including the `hasOwnProperty("strokes")` branch that
  replaces the update with `[updatedFields.strokes["0"]]`.
* `Env` / `joinGame` / `createGame` / `joinOrCreateGame` — the lifecycle
  functions, with the external collaborators (Stitch auth, `findOne`,
  `insertOne`) modelled as an environment of outcomes and every observable
  side effect (console.error, find calls, insert attempts, inserted
  documents, scene starts) recorded in an `Effects` record.
-/

namespace MongoDraws

/-- A 2-D pointer sample, `[x, y]` in the serialized document. -/
abbrev Point := Int × Int

/-- One committed stroke: an ordered list of points. -/
abbrev Stroke := List Point

/-- The match filter of the `updateOne` call in `updateScene`
(`{ "owner_id": this.authId, "_id": this.gameId }`). -/
structure UpdateFilter where
  owner_id : String
  id : String
  deriving Repr, DecidableEq

/-- One `$push` update issued to the collection: the filter and the value
pushed onto the `strokes` field. -/
structure PushUpdate where
  filter : UpdateFilter
  stroke : Stroke
  deriving Repr, DecidableEq

/-- One per-tick pointer sample delivered by Phaser: `activePointer.isDown`
and `activePointer.position`. -/
structure TickInput where
  isDown : Bool
  x : Int
  y : Int
  deriving Repr, DecidableEq

/-- The scene state touched by `initScene` and `updateScene`: the identity
fields set from the scene-start data, the point buffer `this.points`, the
in-progress `this.path` (as its point list; `none` before any path is
created), and the list of polylines drawn so far onto `this.graphics`. -/
structure SceneState where
  authId : String
  ownerId : String
  gameId : String
  points : List Point
  path : Option (List Point)
  drawn : List (List Point)
  deriving Repr, DecidableEq

/-- `Game.updateScene`, one tick.  Returns the new scene state and the
update issued to the collection on this tick, if any.

Source (`src/game.js` lines 66–92): everything is guarded by
`this.authId == this.ownerId`.  If the pointer is up and the buffer is
nonempty, `updateOne({owner_id: authId, _id: gameId}, {$push: {strokes: points}})`
is issued and the buffer cleared.  If the pointer is down, the offset point
`(x-2, y-2)` starts a new path (buffer empty) or extends the current one,
is pushed onto `this.points`, and the current path is drawn. -/
def updateScene (s : SceneState) (inp : TickInput) : SceneState × Option PushUpdate :=
  if s.authId == s.ownerId then
    let (s1, w) :=
      if !inp.isDown && s.points.length > 0 then
        ({ s with points := [] },
         some { filter := { owner_id := s.authId, id := s.gameId }, stroke := s.points })
      else (s, none)
    let s2 :=
      if inp.isDown then
        let p : Point := (inp.x - 2, inp.y - 2)
        let path' := if s1.points.length == 0 then [p]
                     else (s1.path.getD []) ++ [p]
        { s1 with points := s1.points ++ [p], path := some path',
                  drawn := s1.drawn ++ [path'] }
      else s1
    (s2, w)
  else (s, none)

/-- Run `updateScene` over a sequence of ticks, collecting every update
issued to the collection, in order. -/
def runTicks (s : SceneState) : List TickInput → SceneState × List PushUpdate
  | [] => (s, [])
  | inp :: rest =>
    let (s', w) := updateScene s inp
    let (s'', ws) := runTicks s' rest
    (s'', (w.toList) ++ ws)

/-- Store-side matching semantics of the conditional update: the
`{owner_id, _id}` filter matches a document iff both fields agree
(`_id` against the document key, `owner_id` against the owner field). -/
def docMatchesFilter (docId docOwner : String) (f : UpdateFilter) : Bool :=
  docId == f.id && docOwner == f.owner_id

/-! ### The change-feed listener and the snapshot render (`createScene`) -/

/-- The `updatedFields` object of one change-stream notification, as the
listener in `createScene` inspects it.  `fullStrokes` is the value at key
`"strokes"` when the notification reports the entire array
(`updatedFields.hasOwnProperty("strokes")`); `positional` lists the values
at `"strokes.N"` keys, in the object's iteration order. -/
structure ChangeEvent where
  fullStrokes : Option (List Stroke)
  positional : List Stroke
  deriving Repr, DecidableEq

/-- Drawing state of `createScene`: the shared `this.path` (as its point
list, `none` while no path object exists yet) and the polylines drawn onto
`this.graphics`, in drawing order. -/
abbrev DrawState := Option (List Point) × List (List Point)

/-- Render one stroke with the loop pattern of `createScene`
(`if i == 0 then this.path = new Path(stroke[0]…) else this.path.lineTo(…)`
followed by `this.path.draw(graphics)`).

A nonempty stroke rebuilds `this.path` as that stroke and draws it.  For an
empty stroke the loop body never runs, so `this.path.draw` redraws the
stale shared path — or throws a TypeError when `this.path` is still
undefined, modelled as `none`. -/
def renderOne (st : DrawState) (s : Stroke) : Option DrawState :=
  match s with
  | [] =>
    match st.1 with
    | none => none
    | some pl => some (some pl, st.2 ++ [pl])
  | p :: rest => some (some (p :: rest), st.2 ++ [p :: rest])

/-- Render a list of strokes in order (the `forEach`/`for … in` loops of
`createScene`), failing if any single render fails. -/
def renderList (st : DrawState) : List Stroke → Option DrawState
  | [] => some st
  | s :: rest => (renderOne st s).bind (fun st' => renderList st' rest)

/-- The listener body installed by `stream.onNext` in `createScene`:
if `updatedFields` has a `"strokes"` key, it is replaced by the one-element
array `[updatedFields.strokes["0"]]` (a TypeError when the reported array
is empty, since `undefined.length` is then read); otherwise every reported
field value is rendered in iteration order. -/
def processEvent (st : DrawState) (ev : ChangeEvent) : Option DrawState :=
  match ev.fullStrokes with
  | some [] => none
  | some (h :: _) => renderList st [h]
  | none => renderList st ev.positional

/-- `createScene` end to end: render the snapshot `this.strokes` starting
from an undefined `this.path` and an empty canvas, then process the
change-feed notifications in delivery order. -/
def createSceneRun (snapshot : List Stroke) (events : List ChangeEvent) :
    Option DrawState :=
  (renderList (none, []) snapshot).bind
    (fun st => events.foldlM processEvent st)

/-! ### Session lifecycle (`joinGame`, `createGame`, `joinOrCreateGame`) -/

/-- A session document as the lifecycle code reads it back from `findOne`:
the fields `joinGame` actually consumes. -/
structure Doc where
  id : String
  owner_id : String
  strokes : List Stroke
  deriving Repr, DecidableEq

/-- A BSON-ish field value, to state the wire shape of the document literal
passed to `insertOne`. -/
inductive BVal where
  | str (s : String)
  | arr (a : List Stroke)
  | bool (b : Bool)
  deriving Repr, DecidableEq

/-- The document literal `createGame` passes to `insertOne`
(`{_id: id, owner_id: authId, strokes: [], solved: false}`), as an ordered
key–value list. -/
def createDocWire (id authId : String) : List (String × BVal) :=
  [("_id", .str id), ("owner_id", .str authId),
   ("strokes", .arr []), ("solved", .bool false)]

/-- The data record handed to `scene.start("default", …)`. -/
structure SceneStart where
  gameId : String
  authId : String
  ownerId : String
  strokes : List Stroke
  deriving Repr, DecidableEq

/-- Outcomes of the asynchronous collaborators during one
`joinOrCreateGame` run: the Stitch anonymous login (`auth.id` on success),
`collection.findOne({_id: id})` (a document, `null`, or a thrown error),
and `collection.insertOne(…)` (acknowledged or thrown error).  A thrown
error is its message string. -/
structure Env where
  authResult : Except String String
  findResult : Except String (Option Doc)
  insertResult : Except String Unit

/-- Observable side effects of a lifecycle run: `console.error` output,
number of `findOne` calls, number of `insertOne` attempts, documents
actually inserted (as their wire literals), and scene starts. -/
structure Effects where
  errors : List String
  findCalls : Nat
  insertAttempts : Nat
  inserted : List (List (String × BVal))
  sceneStarts : List SceneStart
  deriving Repr, DecidableEq

def Effects.empty : Effects := ⟨[], 0, 0, [], []⟩

def Effects.app (a b : Effects) : Effects :=
  ⟨a.errors ++ b.errors, a.findCalls + b.findCalls,
   a.insertAttempts + b.insertAttempts, a.inserted ++ b.inserted,
   a.sceneStarts ++ b.sceneStarts⟩

/-- Catch of a `try { … } catch (e) { console.error(e); }` wrapper around a
body that either returns a value or throws: a throw is logged and the
function falls through, returning `undefined` (`none`). -/
def catchLog {α : Type} : Except String α × Effects → Option α × Effects
  | (.ok a, eff) => (some a, eff)
  | (.error e, eff) => (none, { eff with errors := eff.errors ++ [e] })

/-- Body of `joinGame(id, authId)` before its `try/catch`: `findOne` by
`_id`; when a document comes back non-null, start the scene with the
document's `owner_id` and `strokes`; return the `findOne` result. -/
def joinGameBody (env : Env) (id authId : String) :
    Except String (Option Doc) × Effects :=
  match env.findResult with
  | .error e => (.error e, { Effects.empty with findCalls := 1 })
  | .ok none => (.ok none, { Effects.empty with findCalls := 1 })
  | .ok (some doc) =>
    (.ok (some doc),
     { Effects.empty with
         findCalls := 1
         sceneStarts := [⟨id, authId, doc.owner_id, doc.strokes⟩] })

/-- `joinGame(id, authId)`: the body wrapped in `try/catch` with
`console.error`, so a thrown lookup error yields `undefined`. -/
def joinGame (env : Env) (id authId : String) : Option (Option Doc) × Effects :=
  catchLog (joinGameBody env id authId)

/-- `createGame`'s return value `{gameId, authId, owner_id}`. -/
structure CreateResult where
  gameId : String
  authId : String
  owner_id : String
  deriving Repr, DecidableEq

/-- Body of `createGame(id, authId)` before its `try/catch`: `insertOne`
the new document; on success start the scene with `ownerId = authId` and
empty strokes, and return `{gameId: id, authId, owner_id: authId}`. -/
def createGameBody (env : Env) (id authId : String) :
    Except String CreateResult × Effects :=
  match env.insertResult with
  | .error e => (.error e, { Effects.empty with insertAttempts := 1 })
  | .ok _ =>
    (.ok ⟨id, authId, authId⟩,
     { Effects.empty with
         insertAttempts := 1
         inserted := [createDocWire id authId]
         sceneStarts := [⟨id, authId, authId, []⟩] })

/-- `createGame(id, authId)`: the body wrapped in `try/catch`, so a thrown
insert error (e.g. a duplicate-key rejection) yields `undefined`. -/
def createGame (env : Env) (id authId : String) :
    Option CreateResult × Effects :=
  catchLog (createGameBody env id authId)

/-- The value `joinOrCreateGame` returns on success: either the document
found by `joinGame` or the record built by `createGame`. -/
inductive JoinOrCreateResult where
  | fromJoin (d : Doc)
  | fromCreate (r : CreateResult)
  deriving Repr, DecidableEq

/-- Body of `joinOrCreateGame(id)` before its `try/catch`: authenticate
(a throw here is caught by `joinOrCreateGame`'s own handler), then
`joinGame`; when its result `== null` (a caught lookup error returns
`undefined`, and `undefined == null` holds in JavaScript), fall through to
`createGame`. -/
def joinOrCreateGameBody (env : Env) (id : String) :
    Except String (Option JoinOrCreateResult) × Effects :=
  match env.authResult with
  | .error e => (.error e, Effects.empty)
  | .ok aid =>
    let (r1, eff1) := joinGame env id aid
    match r1 with
    | some (some doc) => (.ok (some (.fromJoin doc)), eff1)
    | _ =>
      let (r2, eff2) := createGame env id aid
      (.ok (r2.map .fromCreate), eff1.app eff2)

/-- `joinOrCreateGame(id)`: the body wrapped in `try/catch` with
`console.error`. -/
def joinOrCreateGame (env : Env) (id : String) :
    Option (Option JoinOrCreateResult) × Effects :=
  catchLog (joinOrCreateGameBody env id)

/-! ## Helper lemmas -/

/-- The point sampled on a pressed tick: the pointer position with the
fixed `- 2` centering offset, exactly as pushed onto `this.points`. -/
def samplePoint (t : TickInput) : Point := (t.x - 2, t.y - 2)

theorem runTicks_append (s : SceneState) (a b : List TickInput) :
    runTicks s (a ++ b) =
      ((runTicks (runTicks s a).1 b).1,
       (runTicks s a).2 ++ (runTicks (runTicks s a).1 b).2) := by
  induction a generalizing s with
  | nil => simp [runTicks]
  | cons t rest ih =>
    simp only [List.cons_append, runTicks, ih]
    simp [ih, List.append_assoc]

theorem updateScene_nonowner (s : SceneState) (inp : TickInput)
    (h : s.authId ≠ s.ownerId) : updateScene s inp = (s, none) := by
  have hb : (s.authId == s.ownerId) = false := by
    simpa using h
  simp [updateScene, hb]

theorem updateScene_pressed (s : SceneState) (inp : TickInput)
    (hown : s.authId = s.ownerId) (hd : inp.isDown = true) :
    (updateScene s inp).2 = none ∧
    (updateScene s inp).1.points = s.points ++ [samplePoint inp] ∧
    (updateScene s inp).1.authId = s.authId ∧
    (updateScene s inp).1.ownerId = s.ownerId ∧
    (updateScene s inp).1.gameId = s.gameId := by
  have hb : (s.authId == s.ownerId) = true := by
    simpa using hown
  simp [updateScene, hb, hd, samplePoint]

theorem runTicks_pressed (inps : List TickInput) (s : SceneState)
    (hown : s.authId = s.ownerId) (hp : ∀ t ∈ inps, t.isDown = true) :
    (runTicks s inps).2 = [] ∧
    (runTicks s inps).1.points = s.points ++ inps.map samplePoint ∧
    (runTicks s inps).1.authId = s.authId ∧
    (runTicks s inps).1.ownerId = s.ownerId ∧
    (runTicks s inps).1.gameId = s.gameId := by
  induction inps generalizing s with
  | nil => simp [runTicks]
  | cons t rest ih =>
    have ht : t.isDown = true := hp t (List.mem_cons_self t rest)
    obtain ⟨hw, hpts, ha, ho, hg⟩ := updateScene_pressed s t hown ht
    have hown' : (updateScene s t).1.authId = (updateScene s t).1.ownerId := by
      rw [ha, ho, hown]
    obtain ⟨ihw, ihpts, iha, iho, ihg⟩ :=
      ih (updateScene s t).1 hown' (fun u hu => hp u (List.mem_cons_of_mem t hu))
    refine ⟨?_, ?_, ?_, ?_, ?_⟩
    · simp [runTicks, ihw, hw]
    · simp [runTicks, ihpts, hpts, List.append_assoc]
    · simp [runTicks, iha, ha]
    · simp [runTicks, iho, ho]
    · simp [runTicks, ihg, hg]

theorem updateScene_release (s : SceneState) (inp : TickInput)
    (hown : s.authId = s.ownerId) (hd : inp.isDown = false)
    (hne : s.points ≠ []) :
    updateScene s inp =
      ({ s with points := [] },
       some { filter := { owner_id := s.authId, id := s.gameId },
              stroke := s.points }) := by
  have hb : (s.authId == s.ownerId) = true := by
    simpa using hown
  have hlen : 0 < s.points.length := List.length_pos.mpr hne
  simp [updateScene, hb, hd, hlen]

/-! ## Claims -/

/-- **C1.** For every tick of every participant, an append update is
issued only when the participant's identity (`authId`) equals the
session's `ownerId`; every issued append carries a match filter requiring
the document id to equal the session key (`gameId`) and the owner field to
equal the committing participant's identity; and against any target
document whose owner differs from the committing identity the filter never
matches, so a non-owner identity never produces a successful append. -/
theorem append_requires_ownership (s : SceneState) (inp : TickInput)
    (w : PushUpdate) (h : (updateScene s inp).2 = some w) :
    s.authId = s.ownerId ∧
    w.filter.owner_id = s.authId ∧
    w.filter.id = s.gameId ∧
    ∀ docId docOwner, docOwner ≠ s.authId →
      docMatchesFilter docId docOwner w.filter = false := by
  by_cases hown : s.authId = s.ownerId
  · have hb : (s.authId == s.ownerId) = true := by simpa using hown
    by_cases hd : inp.isDown
    · exfalso
      simp [updateScene, hb, hd] at h
    · by_cases hne : s.points = []
      · exfalso
        simp [updateScene, hb, hd, hne] at h
      · rw [updateScene_release s inp hown (by simpa using hd) hne] at h
        obtain rfl : w = { filter := { owner_id := s.authId, id := s.gameId },
                           stroke := s.points } := by
          simpa using h.symm
        refine ⟨hown, rfl, rfl, ?_⟩
        intro docId docOwner hdo
        simp [docMatchesFilter, hdo]
  · rw [updateScene_nonowner s inp hown] at h
    simp at h

/-- Witness for `append_requires_ownership`: the owner `"A"` releasing the
pointer with one buffered point issues an append whose filter is
`{owner_id: "A", _id: "g"}`, and that filter does not match a document
owned by `"B"`. -/
theorem append_requires_ownership_witness :
    (updateScene ⟨"A", "A", "g", [(8, 8)], some [(8, 8)], [[(8, 8)]]⟩
        ⟨false, 0, 0⟩).2 =
      some { filter := { owner_id := "A", id := "g" }, stroke := [(8, 8)] } ∧
    docMatchesFilter "g" "B"
      { owner_id := "A", id := "g" } = false := by
  have h := append_requires_ownership
    ⟨"A", "A", "g", [(8, 8)], some [(8, 8)], [[(8, 8)]]⟩ ⟨false, 0, 0⟩
    { filter := { owner_id := "A", id := "g" }, stroke := [(8, 8)] }
    (by decide)
  exact ⟨by decide, h.2.2.2 "g" "B" (by decide)⟩

/-- **C9.** For a participant whose identity differs from the session's
`ownerId`, every tick is a complete no-op: over any tick sequence the
scene state (point buffer, path, drawn polylines) is unchanged and no
store write is ever issued — the ownership check gates the sampling
itself, not only the write. -/
theorem nonowner_tick_noop (s : SceneState) (inps : List TickInput)
    (h : s.authId ≠ s.ownerId) : runTicks s inps = (s, []) := by
  induction inps with
  | nil => rfl
  | cons t rest ih =>
    simp [runTicks, updateScene_nonowner s t h, ih]

/-- Witness for `nonowner_tick_noop`: participant `"B"` in a session owned
by `"A"` presses and releases; nothing changes and no write is issued. -/
theorem nonowner_tick_noop_witness :
    runTicks ⟨"B", "A", "g", [], none, []⟩
        [⟨true, 10, 10⟩, ⟨true, 12, 11⟩, ⟨false, 0, 0⟩] =
      (⟨"B", "A", "g", [], none, []⟩, []) :=
  nonowner_tick_noop ⟨"B", "A", "g", [], none, []⟩
    [⟨true, 10, 10⟩, ⟨true, 12, 11⟩, ⟨false, 0, 0⟩] (by decide)

/-- **C2.** For the owner, starting with an empty point buffer, a run of
contiguous pressed ticks followed by a release tick commits exactly one
stroke: the points sampled on the pressed ticks, in sampled order, each
with the fixed `- 2` centering offset applied.  The release tick itself
contributes no point, and the point buffer is empty again afterwards,
ready for the next pressed phase. -/
theorem stroke_commit_exact (s : SceneState) (ps : List TickInput)
    (rel : TickInput) (hown : s.authId = s.ownerId) (hempty : s.points = [])
    (hne : ps ≠ []) (hp : ∀ t ∈ ps, t.isDown = true)
    (hr : rel.isDown = false) :
    (runTicks s (ps ++ [rel])).2 =
      [{ filter := { owner_id := s.authId, id := s.gameId },
         stroke := ps.map samplePoint }] ∧
    (runTicks s (ps ++ [rel])).1.points = [] := by
  obtain ⟨hw2, hpts, ha, ho, hg⟩ := runTicks_pressed ps s hown hp
  have hpts' : (runTicks s ps).1.points = ps.map samplePoint := by
    rw [hpts, hempty]; simp
  have hown' : (runTicks s ps).1.authId = (runTicks s ps).1.ownerId := by
    rw [ha, ho, hown]
  have hne' : (runTicks s ps).1.points ≠ [] := by
    rw [hpts']
    simpa using hne
  have hrel := updateScene_release (runTicks s ps).1 rel hown' hr hne'
  rw [runTicks_append]
  constructor
  · rw [hw2]
    simp [runTicks, hrel, hpts', ha, hg]
  · simp [runTicks, hrel]

/-- Witness for `stroke_commit_exact`: owner `"A"` draws two pressed ticks
at (10,10) and (12,11) and releases; the single committed stroke is
[(8,8), (10,9)] and the buffer is empty again. -/
theorem stroke_commit_exact_witness :
    (runTicks ⟨"A", "A", "g", [], none, []⟩
        ([⟨true, 10, 10⟩, ⟨true, 12, 11⟩] ++ [⟨false, 0, 0⟩])).2 =
      [{ filter := { owner_id := "A", id := "g" },
         stroke := [(8, 8), (10, 9)] }] ∧
    (runTicks ⟨"A", "A", "g", [], none, []⟩
        ([⟨true, 10, 10⟩, ⟨true, 12, 11⟩] ++ [⟨false, 0, 0⟩])).1.points = [] :=
  stroke_commit_exact ⟨"A", "A", "g", [], none, []⟩
    [⟨true, 10, 10⟩, ⟨true, 12, 11⟩] ⟨false, 0, 0⟩
    (by decide) (by decide) (by decide) (by decide) (by decide)

/-- **C7.** A stroke of exactly one sample — pointer pressed on one tick
and released on the next — is still committed: the commit path issues one
append whose stroke value is the single offset point, a valid stroke of
length 1. -/
theorem single_sample_stroke_committed (s : SceneState) (t rel : TickInput)
    (hown : s.authId = s.ownerId) (hempty : s.points = [])
    (ht : t.isDown = true) (hr : rel.isDown = false) :
    (runTicks s [t, rel]).2 =
      [{ filter := { owner_id := s.authId, id := s.gameId },
         stroke := [samplePoint t] }] ∧
    ((runTicks s [t, rel]).2.map (fun w => w.stroke.length)) = [1] := by
  have hb : (s.authId == s.ownerId) = true := by simpa using hown
  constructor <;>
    simp [runTicks, updateScene, hb, ht, hr, hempty, samplePoint]

/-- Witness for `single_sample_stroke_committed`: owner `"A"` presses at
(10,10) and releases on the next tick; the committed stroke is the single
point (8,8). -/
theorem single_sample_stroke_committed_witness :
    (runTicks ⟨"A", "A", "g", [], none, []⟩
        [⟨true, 10, 10⟩, ⟨false, 0, 0⟩]).2 =
      [{ filter := { owner_id := "A", id := "g" }, stroke := [(8, 8)] }] ∧
    ((runTicks ⟨"A", "A", "g", [], none, []⟩
        [⟨true, 10, 10⟩, ⟨false, 0, 0⟩]).2.map (fun w => w.stroke.length)) =
      [1] :=
  single_sample_stroke_committed ⟨"A", "A", "g", [], none, []⟩
    ⟨true, 10, 10⟩ ⟨false, 0, 0⟩ (by decide) (by decide) (by decide) (by decide)

theorem renderList_all_nonempty (ss : List Stroke)
    (h : ∀ s ∈ ss, s ≠ []) (p : Option (List Point))
    (d : List (List Point)) :
    ∃ p', renderList (p, d) ss = some (p', d ++ ss) := by
  induction ss generalizing p d with
  | nil => exact ⟨p, by simp [renderList]⟩
  | cons s rest ih =>
    match s, h s (List.mem_cons_self s rest) with
    | q :: l, _ =>
      obtain ⟨p', hp'⟩ :=
        ih (fun u hu => h u (List.mem_cons_of_mem _ hu)) (some (q :: l))
          (d ++ [q :: l])
      exact ⟨p', by simp [renderList, renderOne, hp']⟩

/-- **C3 (counterexample).** A change notification whose `updatedFields`
reports the entire `strokes` collection with two entries — the stroke
`[(0,0)]` followed by the newer stroke `[(5,5)]` — makes the listener
render only `[(0,0)]`, the entry at index `"0"`, which is the first (= the
oldest) entry of the collection, not the newest one `[(5,5)]`. -/
theorem full_array_renders_first_not_newest :
    processEvent (none, []) ⟨some [[(0, 0)], [(5, 5)]], []⟩ =
      some (some [(0, 0)], [[(0, 0)]]) ∧
    ([[(0, 0)]] : List (List Point)) ≠ [[(5, 5)]] :=
  ⟨rfl, by decide⟩

/-- **C3 (amended).** When the change-feed listener receives a
notification whose `updatedFields` contains the entire `strokes`
collection, it renders only the entry at position zero — the *first* entry
of the reported collection — as the delta and discards the rest. -/
theorem full_array_renders_index_zero (st : DrawState) (ev : ChangeEvent)
    (s₀ : Stroke) (rest : List Stroke)
    (h1 : ev.fullStrokes = some (s₀ :: rest)) (h2 : s₀ ≠ []) :
    processEvent st ev = some (some s₀, st.2 ++ [s₀]) := by
  match s₀, h2 with
  | q :: l, _ =>
    simp [processEvent, h1, renderList, renderOne]

/-- Witness for `full_array_renders_index_zero`: a full-array notification
carrying `[[(0,0)], [(5,5)]]` renders exactly the polyline `[(0,0)]`. -/
theorem full_array_renders_index_zero_witness :
    processEvent (none, []) ⟨some [[(0, 0)], [(5, 5)]], []⟩ =
      some (some [(0, 0)], [[(0, 0)]]) :=
  full_array_renders_index_zero (none, []) ⟨some [[(0, 0)], [(5, 5)]], []⟩
    [(0, 0)] [[(5, 5)]] rfl (by decide)

/-- **C4.** Starting from a snapshot of N (nonempty) strokes, if the
change feed delivers notifications that identify newly appended strokes by
position (no full-array field) in append order, the rendered output is
exactly the N snapshot polylines followed by the delivered strokes, one
polyline per delivered stroke, in delivery order — so N+k polylines in
total, with the previously rendered prefix untouched. -/
theorem snapshot_then_deltas_rendered_in_order (snapshot : List Stroke)
    (events : List ChangeEvent)
    (hsnap : ∀ s ∈ snapshot, s ≠ [])
    (hev : ∀ ev ∈ events, ev.fullStrokes = none ∧ ∀ s ∈ ev.positional, s ≠ []) :
    (createSceneRun snapshot events).map Prod.snd =
      some (snapshot ++ events.flatMap ChangeEvent.positional) := by
  obtain ⟨p0, hp0⟩ := renderList_all_nonempty snapshot hsnap none []
  have key : ∀ (evs : List ChangeEvent) (p : Option (List Point))
      (d : List (List Point)),
      (∀ ev ∈ evs, ev.fullStrokes = none ∧ ∀ s ∈ ev.positional, s ≠ []) →
      ∃ p', evs.foldlM processEvent ((p, d) : DrawState) =
        some (p', d ++ evs.flatMap ChangeEvent.positional) := by
    intro evs
    induction evs with
    | nil => intro p d _; exact ⟨p, by simp⟩
    | cons ev rest ih =>
      intro p d hall
      obtain ⟨hfull, hpos⟩ := hall ev (List.mem_cons_self ev rest)
      obtain ⟨p1, hp1⟩ := renderList_all_nonempty ev.positional hpos p d
      have hev1 : processEvent (p, d) ev = some (p1, d ++ ev.positional) := by
        rw [processEvent, hfull, hp1]
      obtain ⟨p', hp'⟩ :=
        ih p1 (d ++ ev.positional)
          (fun u hu => hall u (List.mem_cons_of_mem _ hu))
      refine ⟨p', ?_⟩
      rw [List.foldlM_cons, hev1]
      simpa [List.append_assoc] using hp'
  obtain ⟨p', hp'⟩ := key events p0 snapshot hev
  simp only [createSceneRun, hp0, Option.bind_some]
  simpa using congrArg (Option.map Prod.snd) hp'

/-- Witness for `snapshot_then_deltas_rendered_in_order`: a one-stroke
snapshot followed by two positional deliveries renders exactly three
polylines, in order. -/
theorem snapshot_then_deltas_rendered_in_order_witness :
    (createSceneRun [[(1, 1), (2, 2)]]
        [⟨none, [[(3, 3), (4, 4)]]⟩, ⟨none, [[(5, 5)]]⟩]).map Prod.snd =
      some [[(1, 1), (2, 2)], [(3, 3), (4, 4)], [(5, 5)]] := by
  have h := snapshot_then_deltas_rendered_in_order [[(1, 1), (2, 2)]]
    [⟨none, [[(3, 3), (4, 4)]]⟩, ⟨none, [[(5, 5)]]⟩]
    (by decide) (by simp)
  simpa using h

/-- An update is emitted by `updateScene` only on an owner's release tick
with a nonempty buffer, and it is exactly the `{owner_id, _id}`-filtered
push of the buffered points. -/
theorem updateScene_emits_iff (s : SceneState) (inp : TickInput)
    (w : PushUpdate) (h : (updateScene s inp).2 = some w) :
    s.authId = s.ownerId ∧ inp.isDown = false ∧ s.points ≠ [] ∧
    w = { filter := { owner_id := s.authId, id := s.gameId },
          stroke := s.points } := by
  by_cases hown : s.authId = s.ownerId
  · have hb : (s.authId == s.ownerId) = true := by simpa using hown
    by_cases hd : inp.isDown
    · exfalso
      simp [updateScene, hb, hd] at h
    · by_cases hne : s.points = []
      · exfalso
        simp [updateScene, hb, hd, hne] at h
      · have hrel := updateScene_release s inp hown (by simpa using hd) hne
        rw [hrel] at h
        exact ⟨hown, by simpa using hd, hne, by simpa using h.symm⟩
  · rw [updateScene_nonowner s inp hown] at h
    simp at h

/-- **C5 (counterexample).** With auth ok as `"B"`, lookup finding nothing
and `insertOne` rejected by the unique-key constraint, `joinOrCreateGame`
logs the rejection and returns `undefined`: `findOne` has been called
exactly once (there is no fallback lookup) and no scene is started (no
bootstrap from the existing document). -/
theorem duplicate_create_no_fallback_counterexample :
    joinOrCreateGame ⟨.ok "B", .ok none, .error "E11000 duplicate key"⟩ "g" =
      (some none, ⟨["E11000 duplicate key"], 1, 1, [], []⟩) ∧
    (joinOrCreateGame ⟨.ok "B", .ok none,
        .error "E11000 duplicate key"⟩ "g").2.findCalls = 1 ∧
    (joinOrCreateGame ⟨.ok "B", .ok none,
        .error "E11000 duplicate key"⟩ "g").2.sceneStarts = [] :=
  ⟨rfl, rfl, rfl⟩

/-- **C5 (amended).** If session creation during `joinOrCreateGame` is
rejected by the store's unique-key constraint, the losing writer catches
the rejection and logs it; no fatal error is raised and no error is
surfaced to the user, but the writer does **not** fall back to the lookup
path: `findOne` is called exactly once, no scene is started, and the
operation returns an undefined result. -/
theorem duplicate_create_caught_and_logged (env : Env) (id a e : String)
    (ha : env.authResult = .ok a) (hf : env.findResult = .ok none)
    (hi : env.insertResult = .error e) :
    joinOrCreateGame env id = (some none, ⟨[e], 1, 1, [], []⟩) := by
  simp [joinOrCreateGame, joinOrCreateGameBody, joinGame, joinGameBody,
        createGame, createGameBody, catchLog, ha, hf, hi,
        Effects.app, Effects.empty]

/-- Witness for `duplicate_create_caught_and_logged`. -/
theorem duplicate_create_caught_and_logged_witness :
    joinOrCreateGame ⟨.ok "B", .ok none, .error "dup"⟩ "g" =
      (some none, ⟨["dup"], 1, 1, [], []⟩) :=
  duplicate_create_caught_and_logged ⟨.ok "B", .ok none, .error "dup"⟩
    "g" "B" "dup" rfl rfl rfl

/-- **C6 (counterexample).** With auth ok as `"A"` and the lookup throwing
`"store unreachable"`, `joinOrCreateGame` swallows the error
(`undefined == null`), treats it as "session not found", attempts to
create a new session document, and — the insert succeeding — starts the
session as a brand-new game. -/
theorem lookup_failure_triggers_create_counterexample :
    joinOrCreateGame ⟨.ok "A", .error "store unreachable", .ok ()⟩ "g" =
      (some (some (.fromCreate ⟨"g", "A", "A"⟩)),
       ⟨["store unreachable"], 1, 1, [createDocWire "g" "A"],
        [⟨"g", "A", "A", []⟩]⟩) ∧
    (joinOrCreateGame ⟨.ok "A", .error "store unreachable",
        .ok ()⟩ "g").2.insertAttempts = 1 :=
  ⟨rfl, rfl⟩

/-- **C6 (amended).** If the session lookup throws during
`joinOrCreateGame`, the failure is only logged: `joinGame` catches the
error and returns `undefined`, which `joinOrCreateGame` treats the same as
"session not found" (`undefined == null`), so it proceeds to attempt the
creation of a new session document; no exception propagates to the
caller. -/
theorem lookup_failure_falls_through_to_create (env : Env) (id a e : String)
    (ha : env.authResult = .ok a) (hf : env.findResult = .error e) :
    e ∈ (joinOrCreateGame env id).2.errors ∧
    (joinOrCreateGame env id).2.insertAttempts = 1 ∧
    ((joinOrCreateGame env id).1).isSome = true := by
  cases hi : env.insertResult with
  | error e2 =>
    simp [joinOrCreateGame, joinOrCreateGameBody, joinGame, joinGameBody,
          createGame, createGameBody, catchLog, ha, hf, hi,
          Effects.app, Effects.empty]
  | ok u =>
    simp [joinOrCreateGame, joinOrCreateGameBody, joinGame, joinGameBody,
          createGame, createGameBody, catchLog, ha, hf, hi,
          Effects.app, Effects.empty]

/-- Witness for `lookup_failure_falls_through_to_create`. -/
theorem lookup_failure_falls_through_to_create_witness :
    "boom" ∈ (joinOrCreateGame ⟨.ok "A", .error "boom", .ok ()⟩ "g").2.errors ∧
    (joinOrCreateGame ⟨.ok "A", .error "boom",
        .ok ()⟩ "g").2.insertAttempts = 1 ∧
    ((joinOrCreateGame ⟨.ok "A", .error "boom", .ok ()⟩ "g").1).isSome =
      true :=
  lookup_failure_falls_through_to_create ⟨.ok "A", .error "boom", .ok ()⟩
    "g" "A" "boom" rfl rfl

/-- **C8 (counterexample).** The document `createGame` passes to
`insertOne` is persisted with the key sequence
`["_id", "owner_id", "strokes", "solved"]`: the key `solved` is on the
wire but is not among the keys of the claimed shape
`{ id: string, ownerId: string, strokes: Array<Array<[number,number]>> }`,
so the persisted document's shape is not exactly that shape. -/
theorem document_shape_counterexample :
    (createDocWire "room1" "A").map Prod.fst =
      ["_id", "owner_id", "strokes", "solved"] ∧
    "solved" ∈ (createDocWire "room1" "A").map Prod.fst ∧
    "solved" ∉ (["_id", "owner_id", "strokes"] : List String) ∧
    (createDocWire "room1" "A").map Prod.fst ≠
      ["_id", "owner_id", "strokes"] :=
  ⟨rfl, by decide, by decide, by decide⟩

/-- **C8 (amended).** Every session document persisted by `createGame` has
exactly the shape `{ id, ownerId, strokes, solved: boolean }`: on the wire
exactly the keys `_id`, `owner_id`, `strokes`, `solved`, in that order,
holding the session key string, the creating participant's identity
string, the (initially empty) stroke array, and the boolean `false`.  And
every value the commit path (`updateScene` in `game.js`) pushes onto the
`strokes` field is `this.points`, the buffered ordered list of offset
`[x, y]` point pairs. -/
theorem document_shape_amended (s : SceneState) (inp : TickInput)
    (w : PushUpdate) (id authId : String)
    (h : (updateScene s inp).2 = some w) :
    (createDocWire id authId).map Prod.fst =
      ["_id", "owner_id", "strokes", "solved"] ∧
    (createDocWire id authId).lookup "_id" = some (.str id) ∧
    (createDocWire id authId).lookup "owner_id" = some (.str authId) ∧
    (createDocWire id authId).lookup "strokes" = some (.arr []) ∧
    (createDocWire id authId).lookup "solved" = some (.bool false) ∧
    w.stroke = s.points := by
  obtain ⟨-, -, -, hw⟩ := updateScene_emits_iff s inp w h
  refine ⟨rfl, ?_, ?_, ?_, ?_, by rw [hw]⟩ <;>
    simp [createDocWire, List.lookup]

/-- Witness for `document_shape_amended`: the created document for session
`"room1"` and owner `"A"` carries exactly the four keyed values, and the
owner's release tick with one buffered point pushes exactly that point
list. -/
theorem document_shape_amended_witness :
    (createDocWire "room1" "A").map Prod.fst =
      ["_id", "owner_id", "strokes", "solved"] ∧
    (createDocWire "room1" "A").lookup "_id" = some (.str "room1") ∧
    (createDocWire "room1" "A").lookup "owner_id" = some (.str "A") ∧
    (createDocWire "room1" "A").lookup "strokes" = some (.arr []) ∧
    (createDocWire "room1" "A").lookup "solved" = some (.bool false) ∧
    ({ filter := { owner_id := "A", id := "g" },
       stroke := [((8 : Int), (8 : Int))] } : PushUpdate).stroke =
      [((8 : Int), (8 : Int))] :=
  document_shape_amended ⟨"A", "A", "g", [(8, 8)], some [(8, 8)], []⟩
    ⟨false, 0, 0⟩ _ "room1" "A" (by decide)

/-- **C10.** `joinGame`, `createGame` and `joinOrCreateGame` never
propagate an exception to the caller: a thrown lookup error, a thrown
insert error, and a thrown authentication error are each caught by the
surrounding `try/catch`, logged via `console.error`, and the operation
returns an undefined result instead of aborting. -/
theorem lifecycle_catches_all_failures (env : Env) (id authId : String) :
    (∀ e, env.findResult = .error e →
       joinGame env id authId = (none, ⟨[e], 1, 0, [], []⟩)) ∧
    (∀ e, env.insertResult = .error e →
       createGame env id authId = (none, ⟨[e], 0, 1, [], []⟩)) ∧
    (∀ e, env.authResult = .error e →
       joinOrCreateGame env id = (none, ⟨[e], 0, 0, [], []⟩)) := by
  refine ⟨?_, ?_, ?_⟩
  · intro e he
    simp [joinGame, joinGameBody, catchLog, he, Effects.empty]
  · intro e he
    simp [createGame, createGameBody, catchLog, he, Effects.empty]
  · intro e he
    simp [joinOrCreateGame, joinOrCreateGameBody, catchLog, he,
          Effects.empty]

/-- Witness for `lifecycle_catches_all_failures`: every collaborator
throwing at once, each function returns `undefined` with the error
logged. -/
theorem lifecycle_catches_all_failures_witness :
    joinGame ⟨.error "auth down", .error "find down",
        .error "insert down"⟩ "g" "A" =
      (none, ⟨["find down"], 1, 0, [], []⟩) ∧
    createGame ⟨.error "auth down", .error "find down",
        .error "insert down"⟩ "g" "A" =
      (none, ⟨["insert down"], 0, 1, [], []⟩) ∧
    joinOrCreateGame ⟨.error "auth down", .error "find down",
        .error "insert down"⟩ "g" =
      (none, ⟨["auth down"], 0, 0, [], []⟩) :=
  ⟨(lifecycle_catches_all_failures ⟨.error "auth down", .error "find down",
      .error "insert down"⟩ "g" "A").1 "find down" rfl,
   (lifecycle_catches_all_failures ⟨.error "auth down", .error "find down",
      .error "insert down"⟩ "g" "A").2.1 "insert down" rfl,
   (lifecycle_catches_all_failures ⟨.error "auth down", .error "find down",
      .error "insert down"⟩ "g" "A").2.2 "auth down" rfl⟩

end MongoDraws
